import Mathlib

/-!
Verification of the student-registration dashboard (`streamlit_app.py`).

The dashboard is a single data-transformation pipeline: parse a
semicolon-delimited CSV, clean it, derive a combined household-income
column, and aggregate value counts per reporting dimension.  We embed the
data model and the pure transformation functions shallowly: a data frame
becomes a list of rows, a row an association list from column name to an
optional cell (a `none` cell plays the role of a pandas missing value),
and each source function becomes a Lean function over that model.
-/

namespace PMB

/-- The ordered salary categories, exactly as `create_salary_order` returns
them in the source. -/
def create_salary_order : List String :=
  ["0 - 2.500.000", "2.500.001 - 5.000.000", "5.000.001 - 7.500.000",
   "7.500.001 - 10.000.000", "10.000.001 - 20.000.000", "20.000.001 - 50.000.000",
   "50.000.001 - 100.000.000"]

/-- `get_max_income` from the source: maps an income bracket string to its
numeric upper bound, and everything else to `0`. -/
def get_max_income (income_range : String) : Nat :=
  if income_range = "0 - 2.500.000" then 2500000
  else if income_range = "2.500.001 - 5.000.000" then 5000000
  else if income_range = "5.000.001 - 7.500.000" then 7500000
  else if income_range = "7.500.001 - 10.000.000" then 10000000
  else if income_range = "10.000.001 - 20.000.000" then 20000000
  else if income_range = "20.000.001 - 50.000.000" then 50000000
  else if income_range = "50.000.001 - 100.000.000" then 100000000
  else 0

/-- The five labels the combined household income is bucketed into. -/
def combined_income_labels : List String :=
  ["≤ 5 Juta", "5-10 Juta", "10-20 Juta", "20-50 Juta", "> 50 Juta"]

/-- The bucketing of the summed income performed inside
`get_income_category` (the `if total <= ...` chain over `total`). -/
def incomeBucket (total : Nat) : String :=
  if total ≤ 5000000 then "≤ 5 Juta"
  else if total ≤ 10000000 then "5-10 Juta"
  else if total ≤ 20000000 then "10-20 Juta"
  else if total ≤ 50000000 then "20-50 Juta"
  else "> 50 Juta"

/-- `get_income_category` from the source: `father_max` and `mother_max`
are looked up with `get_max_income`, summed into `total`, and the result
is bucketed by the `if` chain (`incomeBucket`). -/
def get_income_category (father_income mother_income : String) : String :=
  incomeBucket (get_max_income father_income + get_max_income mother_income)

/-- helper: the seven bracket labels evaluate to their upper bounds. -/
theorem get_max_income_brackets :
    get_max_income "0 - 2.500.000" = 2500000 ∧
    get_max_income "2.500.001 - 5.000.000" = 5000000 ∧
    get_max_income "5.000.001 - 7.500.000" = 7500000 ∧
    get_max_income "7.500.001 - 10.000.000" = 10000000 ∧
    get_max_income "10.000.001 - 20.000.000" = 20000000 ∧
    get_max_income "20.000.001 - 50.000.000" = 50000000 ∧
    get_max_income "50.000.001 - 100.000.000" = 100000000 := by
  refine ⟨rfl, ?_, ?_, ?_, ?_, ?_, ?_⟩ <;> decide

/-- C1: `get_max_income` maps each of the seven fixed income-bracket labels
to its numeric upper bound, and the combined category computed by
`get_income_category` depends only on the sum of the father's and mother's
mapped values. -/
theorem c1_income_mapping_and_sum :
    (get_max_income "0 - 2.500.000" = 2500000 ∧
     get_max_income "2.500.001 - 5.000.000" = 5000000 ∧
     get_max_income "5.000.001 - 7.500.000" = 7500000 ∧
     get_max_income "7.500.001 - 10.000.000" = 10000000 ∧
     get_max_income "10.000.001 - 20.000.000" = 20000000 ∧
     get_max_income "20.000.001 - 50.000.000" = 50000000 ∧
     get_max_income "50.000.001 - 100.000.000" = 100000000) ∧
    ∀ a b c d : String,
      get_max_income a + get_max_income b = get_max_income c + get_max_income d →
      get_income_category a b = get_income_category c d := by
  refine ⟨get_max_income_brackets, fun a b c d h => ?_⟩
  unfold get_income_category
  rw [h]

/-- C1 witness: concrete instance of the sum-dependence (swapping the two
top brackets) with the hypothesis discharged by evaluation. -/
theorem c1_income_mapping_and_sum_witness :
    get_income_category "0 - 2.500.000" "50.000.001 - 100.000.000" =
      get_income_category "50.000.001 - 100.000.000" "0 - 2.500.000" :=
  c1_income_mapping_and_sum.2 "0 - 2.500.000" "50.000.001 - 100.000.000"
    "50.000.001 - 100.000.000" "0 - 2.500.000" (by decide)

/-- C2: for every non-negative sum, the bucketing assigns exactly one of
the five combined-income labels, boundary sums fall in the lower bucket,
and `get_income_category` is exactly this bucketing of the summed mapped
incomes. -/
theorem c2_rebucketing :
    (∀ total : Nat, combined_income_labels.count (incomeBucket total) = 1) ∧
    incomeBucket 5000000 = "≤ 5 Juta" ∧
    incomeBucket 10000000 = "5-10 Juta" ∧
    incomeBucket 20000000 = "10-20 Juta" ∧
    incomeBucket 50000000 = "20-50 Juta" ∧
    ∀ a b : String,
      get_income_category a b = incomeBucket (get_max_income a + get_max_income b) := by
  refine ⟨fun total => ?_, by decide, by decide, by decide, by decide, fun a b => rfl⟩
  unfold incomeBucket
  split
  · decide
  · split
    · decide
    · split
      · decide
      · split
        · decide
        · decide

/-- C8: `get_max_income` maps every string that is not one of the seven
bracket labels to 0, and a row with two unrecognized income values gets
the combined category "≤ 5 Juta". -/
theorem c8_unrecognized_income :
    (∀ s : String, s ∉ create_salary_order → get_max_income s = 0) ∧
    ∀ a b : String, a ∉ create_salary_order → b ∉ create_salary_order →
      get_income_category a b = "≤ 5 Juta" := by
  have hz : ∀ s : String, s ∉ create_salary_order → get_max_income s = 0 := by
    intro s hs
    simp only [create_salary_order, List.mem_cons, List.not_mem_nil, or_false, not_or] at hs
    obtain ⟨h1, h2, h3, h4, h5, h6, h7⟩ := hs
    simp [get_max_income, h1, h2, h3, h4, h5, h6, h7]
  refine ⟨hz, fun a b ha hb => ?_⟩
  unfold get_income_category
  rw [hz a ha, hz b hb]
  decide

/-- C8 witness: the placeholder "Tidak Diketahui" is unrecognized, maps to
0, and two such values give "≤ 5 Juta". -/
theorem c8_unrecognized_income_witness :
    get_max_income "Tidak Diketahui" = 0 ∧
    get_income_category "Tidak Diketahui" "Tidak Diketahui" = "≤ 5 Juta" :=
  ⟨c8_unrecognized_income.1 "Tidak Diketahui" (by decide),
   c8_unrecognized_income.2 "Tidak Diketahui" "Tidak Diketahui" (by decide) (by decide)⟩

/-- C9: `get_income_category` is commutative in its two arguments. -/
theorem c9_income_category_comm :
    ∀ a b : String, get_income_category a b = get_income_category b a := by
  intro a b
  unfold get_income_category
  rw [Nat.add_comm]

/-! ## The data-frame model

A row is an association list from column name to cell; a `none` cell is a
pandas missing value (`NaN`); a data frame is a list of rows. -/

/-- A row of the data frame: column name to optional cell value. -/
abbrev Row := List (String × Option String)

/-- A data frame: a list of rows. -/
abbrev Frame := List Row

/-- Read a cell from a row; a missing column behaves like a missing value. -/
def getCell : Row → String → Option String
  | [], _ => none
  | (k, v) :: rest, c => if k = c then v else getCell rest c

/-- Assign a column of a row, as pandas `row[c] = v`: overwrite in place if
the column exists, append it at the end otherwise. -/
def setCell : Row → String → Option String → Row
  | [], c, v => [(c, v)]
  | (k, w) :: rest, c, v =>
      if k = c then (k, v) :: rest else (k, w) :: setCell rest c v

/-- Whether a row has a column of the given name. -/
def hasCol (row : Row) (c : String) : Bool :=
  row.any (fun p => p.1 = c)

/-- The two salary columns `clean_data` rewrites. -/
def salary_columns : List String := ["ayah_penghasilan", "ibu_penghasilan"]

/-- The per-cell effect of `df[col].replace('\\N', '0 - 2.500.000')` over
the two salary columns: a cell equal to the two-character string `\N` in
one of those columns becomes the default bracket. -/
def replaceSentinel (col : String) (cell : Option String) : Option String :=
  if col ∈ salary_columns ∧ cell = some "\\N" then some "0 - 2.500.000" else cell

/-- The per-cell effect of `df.fillna('Tidak Diketahui')`. -/
def fillnaCell (cell : Option String) : Option String :=
  match cell with
  | none => some "Tidak Diketahui"
  | some v => some v

/-- `clean_data` from the source: first replace the sentinel in the two
salary columns, then fill every missing cell with the placeholder. -/
def clean_data (df : Frame) : Frame :=
  (df.map (fun row => row.map (fun p => (p.1, replaceSentinel p.1 p.2)))).map
    (fun row => row.map (fun p => (p.1, fillnaCell p.2)))

/-- C3: `clean_data` preserves the shape of the table and, cell by cell,
replaces the sentinel `\N` exactly in the two salary columns with the
default bracket, fills every missing cell of every column with
"Tidak Diketahui", and leaves every other cell unchanged. -/
theorem c3_clean_data (df : Frame) :
    (clean_data df).length = df.length ∧
    ∀ (i : Nat) (row : Row), df[i]? = some row →
      ∃ row' : Row, (clean_data df)[i]? = some row' ∧ row'.length = row.length ∧
        ∀ (j : Nat) (k : String) (v : Option String), row[j]? = some (k, v) →
          ((k ∈ salary_columns ∧ v = some "\\N") →
             row'[j]? = some (k, some "0 - 2.500.000")) ∧
          (v = none → row'[j]? = some (k, some "Tidak Diketahui")) ∧
          (v ≠ none → ¬(k ∈ salary_columns ∧ v = some "\\N") →
             row'[j]? = some (k, v)) := by
  constructor
  · simp [clean_data]
  · intro i row hrow
    refine ⟨(row.map (fun p => (p.1, replaceSentinel p.1 p.2))).map
      (fun p => (p.1, fillnaCell p.2)), ?_, by simp, ?_⟩
    · simp [clean_data, List.getElem?_map, hrow, Function.comp]
    · intro j k v hcell
      refine ⟨fun hsent => ?_, fun hnone => ?_, fun hne hnsent => ?_⟩
      · simp only [List.getElem?_map, hcell, Option.map_some]
        simp [replaceSentinel, hsent, fillnaCell]
      · subst hnone
        have hrep : replaceSentinel k none = none := by
          simp [replaceSentinel]
        simp only [List.getElem?_map, hcell, Option.map_some]
        simp [hrep, fillnaCell]
      · obtain ⟨s, hs⟩ := Option.ne_none_iff_exists'.mp hne
        subst hs
        have hrep : replaceSentinel k (some s) = some s := by
          simp only [replaceSentinel, ite_eq_right_iff]
          intro hc
          exact absurd hc hnsent
        simp only [List.getElem?_map, hcell, Option.map_some]
        simp [hrep, fillnaCell]

/-- C3 witness: a concrete two-row frame exercising all three cases. -/
theorem c3_clean_data_witness :
    ∃ row', (clean_data [[("ayah_penghasilan", some "\\N"),
                          ("domisili", none),
                          ("ibu_penghasilan", some "2.500.001 - 5.000.000")]])[0]?
        = some row' ∧
      row'[0]? = some ("ayah_penghasilan", some "0 - 2.500.000") ∧
      row'[1]? = some ("domisili", some "Tidak Diketahui") ∧
      row'[2]? = some ("ibu_penghasilan", some "2.500.001 - 5.000.000") := by
  obtain ⟨-, h⟩ := c3_clean_data [[("ayah_penghasilan", some "\\N"),
      ("domisili", none), ("ibu_penghasilan", some "2.500.001 - 5.000.000")]]
  obtain ⟨row', hrow', -, hcells⟩ := h 0 _ rfl
  refine ⟨row', hrow', ?_, ?_, ?_⟩
  · exact ((hcells 0 _ _ rfl).1 (by decide))
  · exact ((hcells 1 _ _ rfl).2.1 rfl)
  · exact ((hcells 2 _ _ rfl).2.2 (by decide) (by decide))

/-! ## The derived combined-income column (`income_analysis`) -/

/-- `get_max_income` lifted to a cell: a missing value compares unequal to
every bracket string in the source's `if` chain, so it falls through to
the final `else` and maps to 0. -/
def get_max_income_cell (cell : Option String) : Nat :=
  match cell with
  | some s => get_max_income s
  | none => 0

/-- `get_income_category` lifted to cells, as applied row-wise by
`df.apply(lambda row: get_income_category(row['ayah_penghasilan'],
row['ibu_penghasilan']), axis=1)`. -/
def get_income_category_cell (father mother : Option String) : String :=
  incomeBucket (get_max_income_cell father + get_max_income_cell mother)

/-- Look a column up in a row, distinguishing an absent column (`none`,
where pandas `row[c]` raises `KeyError`) from a present column whose cell
is missing (`some none`, pandas `NaN`). -/
def findCol : Row → String → Option (Option String)
  | [], _ => none
  | (k, v) :: rest, c => if k = c then some v else findCol rest c

/-- The lambda of `df.apply(lambda row: get_income_category(
row['ayah_penghasilan'], row['ibu_penghasilan']), axis=1)`: `none` models
the `KeyError` raised when a row lacks one of the two income columns. -/
def income_apply (row : Row) : Option String :=
  match findCol row "ayah_penghasilan", findCol row "ibu_penghasilan" with
  | some a, some b => some (get_income_category_cell a b)
  | _, _ => none

/-- The data-frame effect of `income_analysis`:
`df['combined_income_category'] = df.apply(..., axis=1)` assigns the
derived category column on every row; if any row lacks an income column
the `apply` raises `KeyError` (result `none`) and nothing is assigned.
(The rest of `income_analysis` only draws charts and is modelled
separately where a claim needs it.) -/
def income_analysis : Frame → Option Frame
  | [] => some []
  | row :: rest =>
      match income_apply row with
      | none => none
      | some v =>
          match income_analysis rest with
          | none => none
          | some rest' =>
              some (setCell row "combined_income_category" (some v) :: rest')

/-- helper: assigning an absent column appends it at the end of the row. -/
theorem setCell_of_not_hasCol (row : Row) (c : String) (v : Option String)
    (h : hasCol row c = false) : setCell row c v = row ++ [(c, v)] := by
  induction row with
  | nil => rfl
  | cons p rest ih =>
    simp only [hasCol, List.any_cons, Bool.or_eq_false_iff, decide_eq_false_iff_not] at h
    obtain ⟨h1, h2⟩ := h
    simp only [setCell, if_neg h1, List.cons_append]
    rw [ih h2]

/-- helper: on a row that has column `c`, the lookup returns its cell. -/
theorem findCol_eq_getCell (row : Row) (c : String) (h : hasCol row c = true) :
    findCol row c = some (getCell row c) := by
  induction row with
  | nil => simp [hasCol] at h
  | cons p rest ih =>
    obtain ⟨k, v⟩ := p
    by_cases hk : k = c
    · simp [findCol, getCell, hk]
    · have h' : hasCol rest c = true := by
        simp only [hasCol, List.any_cons, Bool.or_eq_true, decide_eq_true_eq] at h
        rcases h with h | h
        · exact absurd h hk
        · simpa [hasCol] using h
      simp [findCol, getCell, hk, ih h']

/-- C10 counterexample: on a one-row frame that has both income columns
and already has a `combined_income_category` column, `income_analysis`
succeeds and overwrites the pre-existing column's value in place instead
of leaving it unchanged, so the claim as stated (over every input table)
fails. -/
theorem c10_counterexample :
    income_analysis [[("ayah_penghasilan", some "Tidak Diketahui"),
                      ("ibu_penghasilan", some "Tidak Diketahui"),
                      ("combined_income_category", some "x")]]
      = some [[("ayah_penghasilan", some "Tidak Diketahui"),
               ("ibu_penghasilan", some "Tidak Diketahui"),
               ("combined_income_category", some "≤ 5 Juta")]] ∧
    (some "≤ 5 Juta" : Option String) ≠ some "x" := by
  exact ⟨rfl, by decide⟩

/-- C10 (amended): on every frame whose rows all have the two income
columns and no pre-existing `combined_income_category` column, the
assignment succeeds and appends exactly that one column to each row,
changing nothing else: the row count is unchanged and every row becomes
itself plus the derived cell at the end (so all pre-existing columns and
values survive, and the subsequent raw-data export sees every original
column plus the derived one).  A pre-existing `combined_income_category`
column is overwritten in place instead; a row missing an income column
makes the computation raise. -/
theorem c10_income_analysis_frame (df : Frame)
    (hcols : ∀ row ∈ df, hasCol row "ayah_penghasilan" = true ∧
        hasCol row "ibu_penghasilan" = true ∧
        hasCol row "combined_income_category" = false) :
    ∃ df' : Frame, income_analysis df = some df' ∧
      df'.length = df.length ∧
      ∀ (i : Nat) (row : Row), df[i]? = some row →
        df'[i]? = some (row ++
          [("combined_income_category",
            some (get_income_category_cell (getCell row "ayah_penghasilan")
                                           (getCell row "ibu_penghasilan")))]) := by
  induction df with
  | nil => exact ⟨[], rfl, rfl, fun i row h => by simp at h⟩
  | cons row rest ih =>
    obtain ⟨ha, hb, hc⟩ := hcols row (List.mem_cons_self row rest)
    obtain ⟨rest', hrest', hlen, hidx⟩ :=
      ih (fun r hr => hcols r (List.mem_cons_of_mem row hr))
    have happ : income_apply row =
        some (get_income_category_cell (getCell row "ayah_penghasilan")
                                       (getCell row "ibu_penghasilan")) := by
      unfold income_apply
      rw [findCol_eq_getCell row _ ha, findCol_eq_getCell row _ hb]
    refine ⟨(row ++ [("combined_income_category",
        some (get_income_category_cell (getCell row "ayah_penghasilan")
                                       (getCell row "ibu_penghasilan")))]) :: rest',
      ?_, ?_, ?_⟩
    · simp only [income_analysis, happ, hrest']
      rw [setCell_of_not_hasCol row _ _ hc]
    · simp [hlen]
    · intro i r hr
      cases i with
      | zero =>
        simp only [List.getElem?_cons_zero, Option.some_inj] at hr
        subst hr
        simp
      | succ n =>
        simp only [List.getElem?_cons_succ] at hr ⊢
        exact hidx n r hr

/-- C10 witness: a one-row frame with the two income columns and no
derived column gets exactly that column appended, with value computed
from the two income cells. -/
theorem c10_income_analysis_frame_witness :
    ∃ df' : Frame,
      income_analysis [[("ayah_penghasilan", some "0 - 2.500.000"),
                        ("ibu_penghasilan", some "2.500.001 - 5.000.000")]]
        = some df' ∧
      df'.length = 1 ∧
      df'[0]? = some [("ayah_penghasilan", some "0 - 2.500.000"),
                      ("ibu_penghasilan", some "2.500.001 - 5.000.000"),
                      ("combined_income_category", some "5-10 Juta")] := by
  obtain ⟨df', h1, h2, h3⟩ := c10_income_analysis_frame
    [[("ayah_penghasilan", some "0 - 2.500.000"),
      ("ibu_penghasilan", some "2.500.001 - 5.000.000")]] (by decide)
  exact ⟨df', h1, h2, h3 0 _ rfl⟩

/-! ## Value counts

`pandas.Series.value_counts()` lists each distinct (non-missing) value of
a column with its number of occurrences, most frequent first.  We model
it as: the distinct values in order of first appearance, each paired with
its count, stably sorted by descending count. -/

/-- The distinct values of a list, in order of first appearance;
`seen` accumulates values already emitted. -/
def distinctAux : List String → List String → List String
  | [], _ => []
  | x :: xs, seen =>
      if seen.contains x then distinctAux xs seen
      else x :: distinctAux xs (x :: seen)

/-- The distinct values of a list, in order of first appearance. -/
def distinctFirst (xs : List String) : List String :=
  distinctAux xs []

/-- Stable insertion into a list sorted by descending count: the new pair
goes before the first strictly smaller count. -/
def insertDesc (p : String × Nat) : List (String × Nat) → List (String × Nat)
  | [] => [p]
  | q :: rest => if q.2 ≤ p.2 then p :: q :: rest else q :: insertDesc p rest

/-- Stable insertion sort by descending count. -/
def sortDesc : List (String × Nat) → List (String × Nat)
  | [] => []
  | p :: rest => insertDesc p (sortDesc rest)

/-- `Series.value_counts()`: distinct values with their multiplicities,
most frequent first. -/
def value_counts (xs : List String) : List (String × Nat) :=
  sortDesc ((distinctFirst xs).map (fun l => (l, xs.count l)))

theorem mem_distinctAux (a : String) :
    ∀ (xs seen : List String), a ∈ distinctAux xs seen ↔ a ∈ xs ∧ a ∉ seen := by
  intro xs
  induction xs with
  | nil => simp [distinctAux]
  | cons x xs ih =>
    intro seen
    by_cases hx : seen.contains x
    · have hxs : x ∈ seen := by simpa using hx
      simp only [distinctAux, if_pos hx, ih, List.mem_cons]
      constructor
      · exact fun ⟨h1, h2⟩ => ⟨Or.inr h1, h2⟩
      · rintro ⟨h1 | h1, h2⟩
        · exact absurd (h1 ▸ hxs) h2
        · exact ⟨h1, h2⟩
    · have hxs : x ∉ seen := by simpa using hx
      simp only [distinctAux, if_neg hx, List.mem_cons, ih, List.mem_cons]
      constructor
      · rintro (h | ⟨h1, h2⟩)
        · exact ⟨Or.inl h, h ▸ hxs⟩
        · exact ⟨Or.inr h1, fun hc => h2 (Or.inr hc)⟩
      · rintro ⟨h1 | h1, h2⟩
        · exact Or.inl h1
        · by_cases hax : a = x
          · exact Or.inl hax
          · exact Or.inr ⟨h1, fun hc => (hc.elim hax h2)⟩

theorem nodup_distinctAux : ∀ (xs seen : List String), (distinctAux xs seen).Nodup := by
  intro xs
  induction xs with
  | nil => simp [distinctAux]
  | cons x xs ih =>
    intro seen
    by_cases hx : seen.contains x
    · rw [distinctAux, if_pos hx]
      exact ih seen
    · rw [distinctAux, if_neg hx]
      rw [List.nodup_cons]
      refine ⟨fun hc => ?_, ih _⟩
      exact ((mem_distinctAux x xs (x :: seen)).mp hc).2 (List.mem_cons_self x seen)

theorem mem_distinctFirst (a : String) (xs : List String) :
    a ∈ distinctFirst xs ↔ a ∈ xs := by
  simp [distinctFirst, mem_distinctAux]

theorem nodup_distinctFirst (xs : List String) : (distinctFirst xs).Nodup :=
  nodup_distinctAux xs []

theorem insertDesc_perm (p : String × Nat) (l : List (String × Nat)) :
    List.Perm (insertDesc p l) (p :: l) := by
  induction l with
  | nil => exact List.Perm.refl _
  | cons q rest ih =>
    by_cases h : q.2 ≤ p.2
    · simp only [insertDesc, if_pos h]
      exact List.Perm.refl _
    · simp only [insertDesc, if_neg h]
      exact (ih.cons q).trans (List.Perm.swap p q rest)

theorem sortDesc_perm (l : List (String × Nat)) : List.Perm (sortDesc l) l := by
  induction l with
  | nil => exact List.Perm.refl _
  | cons p rest ih =>
    exact (insertDesc_perm p (sortDesc rest)).trans (ih.cons p)

/-- The descending-count ordering on (value, count) pairs. -/
def countGE (p q : String × Nat) : Prop := q.2 ≤ p.2

theorem pairwise_insertDesc (p : String × Nat) (l : List (String × Nat))
    (h : l.Pairwise countGE) : (insertDesc p l).Pairwise countGE := by
  induction l with
  | nil => simp [insertDesc, countGE]
  | cons q rest ih =>
    rw [List.pairwise_cons] at h
    obtain ⟨hq, hrest⟩ := h
    by_cases hle : q.2 ≤ p.2
    · simp only [insertDesc, if_pos hle, List.pairwise_cons, List.mem_cons]
      refine ⟨?_, ?_, hrest⟩
      · rintro r (rfl | hr)
        · exact hle
        · exact Nat.le_trans (hq r hr) hle
      · exact hq
    · simp only [insertDesc, if_neg hle, List.pairwise_cons]
      refine ⟨fun r hr => ?_, ih hrest⟩
      have hmem : r ∈ p :: rest := (insertDesc_perm p rest).mem_iff.mp hr
      rcases List.mem_cons.mp hmem with rfl | hr'
      · exact Nat.le_of_not_le hle
      · exact hq r hr'

theorem pairwise_sortDesc (l : List (String × Nat)) :
    (sortDesc l).Pairwise countGE := by
  induction l with
  | nil => simp [sortDesc]
  | cons p rest ih => exact pairwise_insertDesc p _ ih

theorem value_counts_perm (xs : List String) :
    List.Perm (value_counts xs) ((distinctFirst xs).map (fun l => (l, xs.count l))) :=
  sortDesc_perm _

theorem value_counts_pairwise (xs : List String) :
    (value_counts xs).Pairwise countGE :=
  pairwise_sortDesc _

theorem mem_value_counts (xs : List String) (p : String × Nat)
    (hp : p ∈ value_counts xs) : p.1 ∈ xs ∧ p.2 = xs.count p.1 := by
  have := (value_counts_perm xs).mem_iff.mp hp
  obtain ⟨l, hl, rfl⟩ := List.mem_map.mp this
  exact ⟨(mem_distinctFirst l xs).mp hl, rfl⟩

theorem value_counts_map_fst_perm (xs : List String) :
    List.Perm ((value_counts xs).map Prod.fst) (distinctFirst xs) := by
  have h := (value_counts_perm xs).map Prod.fst
  rw [List.map_map] at h
  have he : (Prod.fst ∘ fun l : String => (l, xs.count l)) = id := rfl
  rw [he, List.map_id] at h
  exact h

theorem value_counts_nodup_fst (xs : List String) :
    ((value_counts xs).map Prod.fst).Nodup :=
  (value_counts_map_fst_perm xs).nodup_iff.mpr (nodup_distinctFirst xs)

/-- Elements of `l.take n` have counts at least those of `l.drop n` in a
descending-sorted list. -/
theorem take_most_frequent (l : List (String × Nat)) (h : l.Pairwise countGE)
    (n : Nat) (p q : String × Nat) (hp : p ∈ l.take n) (hq : q ∈ l.drop n) :
    q.2 ≤ p.2 := by
  have h2 : (l.take n ++ l.drop n).Pairwise countGE := by
    rw [List.take_append_drop]
    exact h
  exact (List.pairwise_append.mp h2).2.2 p hp q hq

/-! ## Reordering the income value counts (`income_analysis`, C4) -/

/-- pandas `Series.reindex`: each requested label paired with its value in
the series (the labels requested below are always present, so the `getD`
default is never reached). -/
def reindex (vc : List (String × Nat)) (idx : List String) : List (String × Nat) :=
  idx.map (fun l => (l, ((vc.find? (fun p => p.1 == l)).map Prod.snd).getD 0))

/-- The reordering applied to the father's (and identically the mother's)
income value counts in `income_analysis`:
`counts.reindex([x for x in salary_order if x in counts.index])`. -/
def income_ordered (xs : List String) : List (String × Nat) :=
  reindex (value_counts xs)
    (create_salary_order.filter (fun l => (value_counts xs).any (fun p => p.1 == l)))

theorem lookup_eq (vc : List (String × Nat)) (c : String → Nat)
    (hvc : ∀ p ∈ vc, p.2 = c p.1) (l : String) (hl : l ∈ vc.map Prod.fst) :
    ((vc.find? (fun p => p.1 == l)).map Prod.snd).getD 0 = c l := by
  induction vc with
  | nil => simp at hl
  | cons p rest ih =>
    by_cases hp : p.1 = l
    · have hbeq : (p.1 == l) = true := by simpa using hp
      simp only [List.find?, hbeq]
      simp [hvc p (List.mem_cons_self p rest), hp]
    · have hbeq : (p.1 == l) = false := by simpa using hp
      simp only [List.find?, hbeq]
      refine ih (fun q hq => hvc q (List.mem_cons_of_mem p hq)) ?_
      rcases List.mem_map.mp hl with ⟨q, hq, rfl⟩
      rcases List.mem_cons.mp hq with rfl | hq'
      · exact absurd rfl hp
      · exact List.mem_map_of_mem Prod.fst hq'

theorem filter_map_comm (f : String → String × Nat) (p : String × Nat → Bool)
    (l : List String) :
    (l.map f).filter p = (l.filter (fun a => p (f a))).map f := by
  induction l with
  | nil => rfl
  | cons a l ih =>
    by_cases h : p (f a) <;> simp [List.filter_cons, h, ih]

/-- C4 counterexample: for the singleton column `["Tidak Diketahui"]` the
value counts are `[("Tidak Diketahui", 1)]`, but the reordered series
drops that label entirely (it is not one of the seven brackets), so the
reordered series is not a permutation of the value counts. -/
theorem c4_counterexample :
    value_counts ["Tidak Diketahui"] = [("Tidak Diketahui", 1)] ∧
    income_ordered ["Tidak Diketahui"] = [] ∧
    ¬ List.Perm (income_ordered ["Tidak Diketahui"])
        (value_counts ["Tidak Diketahui"]) := by
  refine ⟨rfl, rfl, fun h => ?_⟩
  exact absurd h.length_eq (by decide)

/-- C4 (amended): the reordered series contains exactly the (label, count)
pairs of the value counts whose label is one of the seven bracket labels
(so it is a permutation of the full value counts exactly when every value
is a bracket label), listed in the ascending order given by
`create_salary_order`. -/
theorem c4_reorder_perm (xs : List String) :
    List.Perm (income_ordered xs)
      ((value_counts xs).filter (fun p => decide (p.1 ∈ create_salary_order))) ∧
    List.Sublist ((income_ordered xs).map Prod.fst) create_salary_order := by
  constructor
  · have hvc : ∀ p ∈ value_counts xs, p.2 = xs.count p.1 :=
      fun p hp => (mem_value_counts xs p hp).2
    -- the reordered series, with each lookup evaluated to the count
    have hA : income_ordered xs =
        (create_salary_order.filter
          (fun l => (value_counts xs).any (fun p => p.1 == l))).map
          (fun l => (l, xs.count l)) := by
      unfold income_ordered reindex
      refine List.map_congr_left (fun l hl => ?_)
      have hany := (List.mem_filter.mp hl).2
      rcases List.any_eq_true.mp hany with ⟨p, hp, hpl⟩
      have hfst : l ∈ (value_counts xs).map Prod.fst := by
        have : p.1 = l := by simpa using hpl
        exact this ▸ List.mem_map_of_mem Prod.fst hp
      rw [lookup_eq (value_counts xs) (fun l => xs.count l) hvc l hfst]
    -- the presence test agrees with membership in the distinct values
    have hC : create_salary_order.filter
          (fun l => (value_counts xs).any (fun p => p.1 == l)) =
        create_salary_order.filter (fun l => decide (l ∈ distinctFirst xs)) := by
      refine List.filter_congr (fun l _ => ?_)
      rw [Bool.eq_iff_iff]
      simp only [List.any_eq_true, decide_eq_true_eq, beq_iff_eq]
      constructor
      · rintro ⟨p, hp, rfl⟩
        exact (value_counts_map_fst_perm xs).mem_iff.mp (List.mem_map_of_mem Prod.fst hp)
      · intro hl
        rcases List.mem_map.mp ((value_counts_map_fst_perm xs).mem_iff.mpr hl) with
          ⟨p, hp, rfl⟩
        exact ⟨p, hp, rfl⟩
    -- swap the filter from the bracket list to the distinct values
    have hD : List.Perm
        (create_salary_order.filter (fun l => decide (l ∈ distinctFirst xs)))
        ((distinctFirst xs).filter (fun l => decide (l ∈ create_salary_order))) := by
      apply List.perm_of_nodup_nodup_toFinset_eq
      · exact (by decide : create_salary_order.Nodup).filter _
      · exact (nodup_distinctFirst xs).filter _
      · ext a
        simp only [List.mem_toFinset, List.mem_filter, decide_eq_true_eq]
        exact ⟨fun ⟨h1, h2⟩ => ⟨h2, h1⟩, fun ⟨h1, h2⟩ => ⟨h2, h1⟩⟩
    -- assemble: reorder = map over filtered brackets ~ filtered value counts
    have h1 : income_ordered xs =
        (create_salary_order.filter (fun l => decide (l ∈ distinctFirst xs))).map
          (fun l => (l, xs.count l)) := by rw [hA, hC]
    have h2 : List.Perm
        ((create_salary_order.filter (fun l => decide (l ∈ distinctFirst xs))).map
          (fun l => (l, xs.count l)))
        (((distinctFirst xs).filter (fun l => decide (l ∈ create_salary_order))).map
          (fun l => (l, xs.count l))) := hD.map _
    have h3 : ((distinctFirst xs).filter
          (fun l => decide (l ∈ create_salary_order))).map (fun l => (l, xs.count l)) =
        ((distinctFirst xs).map (fun l => (l, xs.count l))).filter
          (fun p => decide (p.1 ∈ create_salary_order)) := by
      rw [filter_map_comm]
    have h4 : List.Perm
        (((distinctFirst xs).map (fun l => (l, xs.count l))).filter
          (fun p => decide (p.1 ∈ create_salary_order)))
        ((value_counts xs).filter (fun p => decide (p.1 ∈ create_salary_order))) :=
      (value_counts_perm xs).symm.filter _
    rw [h1]
    exact (h2.trans (h3 ▸ h4))
  · have hfst : (income_ordered xs).map Prod.fst =
        create_salary_order.filter
          (fun l => (value_counts xs).any (fun p => p.1 == l)) := by
      unfold income_ordered reindex
      rw [List.map_map]
      have he : (Prod.fst ∘ fun l : String =>
          (l, (((value_counts xs).find? (fun p => p.1 == l)).map Prod.snd).getD 0)) =
          id := rfl
      rw [he, List.map_id]
    rw [hfst]
    exact List.filter_sublist _

/-! ## Top-N truncation of the reporting dimensions (C6) -/

/-- The non-missing values of one column of a frame (`value_counts`
ignores missing values). -/
def columnValues (df : Frame) (c : String) : List String :=
  df.filterMap (fun row => getCell row c)

/-- The two count series of `geographical_analysis`: all provinces, and
the kabupaten/kota counts restricted with `.head(10)`. -/
def geographical_analysis (df : Frame) : List (String × Nat) × List (String × Nat) :=
  (value_counts (columnValues df "alamat_propinsi"),
   (value_counts (columnValues df "alamat_kabupaten")).take 10)

/-- The two count series of `parent_occupation_analysis`, both restricted
with `.head(8)`. -/
def parent_occupation_analysis (df : Frame) :
    List (String × Nat) × List (String × Nat) :=
  ((value_counts (columnValues df "ayah_pekerjaan")).take 8,
   (value_counts (columnValues df "ibu_pekerjaan")).take 8)

/-- The two count series of `school_origin_analysis`: all school
provinces, and the school counts restricted with `.head(10)`. -/
def school_origin_analysis (df : Frame) :
    List (String × Nat) × List (String × Nat) :=
  (value_counts (columnValues df "propinsi_asal_sekolah"),
   (value_counts (columnValues df "asal_sekolah")).take 10)

/-- C6: the kabupaten/kota and school dimensions are restricted to the
first 10 entries of their value counts and the two parental-occupation
dimensions to the first 8, each in descending count order and containing
only values at least as frequent as every value cut off; the province
dimensions are not truncated. -/
theorem c6_top_n (df : Frame) :
    ((geographical_analysis df).2 =
        (value_counts (columnValues df "alamat_kabupaten")).take 10 ∧
     (∀ p q : String × Nat, p ∈ (geographical_analysis df).2 →
        q ∈ (value_counts (columnValues df "alamat_kabupaten")).drop 10 →
        q.2 ≤ p.2) ∧
     (geographical_analysis df).2.Pairwise countGE ∧
     (geographical_analysis df).1 = value_counts (columnValues df "alamat_propinsi")) ∧
    ((parent_occupation_analysis df).1 =
        (value_counts (columnValues df "ayah_pekerjaan")).take 8 ∧
     (∀ p q : String × Nat, p ∈ (parent_occupation_analysis df).1 →
        q ∈ (value_counts (columnValues df "ayah_pekerjaan")).drop 8 →
        q.2 ≤ p.2) ∧
     (parent_occupation_analysis df).1.Pairwise countGE ∧
     (parent_occupation_analysis df).2 =
        (value_counts (columnValues df "ibu_pekerjaan")).take 8 ∧
     (∀ p q : String × Nat, p ∈ (parent_occupation_analysis df).2 →
        q ∈ (value_counts (columnValues df "ibu_pekerjaan")).drop 8 →
        q.2 ≤ p.2) ∧
     (parent_occupation_analysis df).2.Pairwise countGE) ∧
    ((school_origin_analysis df).2 =
        (value_counts (columnValues df "asal_sekolah")).take 10 ∧
     (∀ p q : String × Nat, p ∈ (school_origin_analysis df).2 →
        q ∈ (value_counts (columnValues df "asal_sekolah")).drop 10 →
        q.2 ≤ p.2) ∧
     (school_origin_analysis df).2.Pairwise countGE ∧
     (school_origin_analysis df).1 =
        value_counts (columnValues df "propinsi_asal_sekolah")) := by
  refine ⟨⟨rfl, ?_, ?_, rfl⟩, ⟨rfl, ?_, ?_, rfl, ?_, ?_⟩, ⟨rfl, ?_, ?_, rfl⟩⟩ <;>
    first
    | (intro p q hp hq
       exact take_most_frequent _ (value_counts_pairwise _) _ p q hp hq)
    | exact (value_counts_pairwise _).sublist (List.take_sublist _ _)

/-- A sample frame for the C6 witness: value "a" occurs twice and ten
further values once each, in all four truncated dimensions. -/
def sampleRow (x : String) : Row :=
  [("alamat_kabupaten", some x), ("ayah_pekerjaan", some x),
   ("ibu_pekerjaan", some x), ("asal_sekolah", some x)]

/-- Twelve sample rows with eleven distinct values per dimension. -/
def sampleFrame : Frame :=
  [sampleRow "a", sampleRow "a", sampleRow "b", sampleRow "c", sampleRow "d",
   sampleRow "e", sampleRow "f", sampleRow "g", sampleRow "h", sampleRow "i",
   sampleRow "j", sampleRow "k"]

/-- C6 witness: on the sample frame, a value kept by each truncation is at
least as frequent as one cut off, by the theorem applied at concrete
members. -/
theorem c6_top_n_witness :
    ((("k", 1) : String × Nat).2 ≤ (("a", 2) : String × Nat).2) ∧
    ((("i", 1) : String × Nat).2 ≤ (("a", 2) : String × Nat).2) ∧
    ((("j", 1) : String × Nat).2 ≤ (("b", 1) : String × Nat).2) ∧
    ((("k", 1) : String × Nat).2 ≤ (("c", 1) : String × Nat).2) :=
  ⟨(c6_top_n sampleFrame).1.2.1 ("a", 2) ("k", 1) (by decide) (by decide),
   (c6_top_n sampleFrame).2.1.2.1 ("a", 2) ("i", 1) (by decide) (by decide),
   (c6_top_n sampleFrame).2.1.2.2.2.2.1 ("b", 1) ("j", 1) (by decide) (by decide),
   (c6_top_n sampleFrame).2.2.2.1 ("c", 1) ("k", 1) (by decide) (by decide)⟩

/-! ## Loading (`load_data`, C5) and section toggles (`main`, C7) -/

/-- Split raw input into lines at newline characters. -/
def splitLines : List Char → List Char → List String
  | [], cur => [String.mk cur.reverse]
  | c :: rest, cur =>
      if c = '\n' then String.mk cur.reverse :: splitLines rest []
      else splitLines rest (c :: cur)

/-- Split one record into fields at semicolons, treating text between
double quotes (`Char.ofNat 34`) as literal. -/
def parseFields : List Char → Bool → List Char → List String
  | [], _, cur => [String.mk cur.reverse]
  | c :: rest, inQ, cur =>
      if c = Char.ofNat 34 then parseFields rest (!inQ) cur
      else if c = ';' then
        if inQ then parseFields rest inQ (c :: cur)
        else String.mk cur.reverse :: parseFields rest false []
      else parseFields rest inQ (c :: cur)

/-- Modelled from the spec: the parsing done by
`pd.read_csv(file, delimiter=';', quotechar='"', on_bad_lines='skip')` is
library code not in this repository; per the spec it parses a
semicolon-delimited CSV with double-quoted fields and skips malformed
rows (here: rows whose field count differs from the header's), and an
empty input raises a parse error. -/
def read_csv (input : String) : Except String (List String × List (List String)) :=
  match (splitLines input.data []).filter (fun l => !(l == "")) with
  | [] => Except.error "No columns to parse from file"
  | header :: body =>
      let h := parseFields header.data false []
      Except.ok (h, body.filterMap (fun l =>
        let fs := parseFields l.data false []
        if fs.length = h.length then some fs else none))

/-- `load_data` from the source: return the parsed table, or catch the
parse exception, display `st.error("Error loading CSV: ...")` (second
component: the displayed error messages) and return `None`. -/
def load_data (file : String) :
    Option (List String × List (List String)) × List String :=
  match read_csv file with
  | Except.ok df => (some df, [])
  | Except.error e => (none, ["Error loading CSV: " ++ e])

/-- The sidebar checkboxes of `main`, one per report section, each
created with default `True`. -/
structure Toggles where
  show_summary : Bool := true
  show_demographic : Bool := true
  show_geographic : Bool := true
  show_preferences : Bool := true
  show_parent_education : Bool := true
  show_parent_occupation : Bool := true
  show_income : Bool := true
  show_school_origin : Bool := true

/-- The toggle state as `main` creates it: every checkbox on. -/
def defaultToggles : Toggles := {}

/-- The report sections `main` renders for a toggle state, in order; the
raw-data expander with its download button is always rendered. -/
def renderedSections (t : Toggles) : List String :=
  (if t.show_summary then ["summary_statistics"] else []) ++
  (if t.show_demographic then ["demographic_analysis"] else []) ++
  (if t.show_geographic then ["geographical_analysis"] else []) ++
  (if t.show_preferences then ["school_preference_analysis"] else []) ++
  (if t.show_parent_education then ["parent_education_analysis"] else []) ++
  (if t.show_parent_occupation then ["parent_occupation_analysis"] else []) ++
  (if t.show_income then ["income_analysis"] else []) ++
  (if t.show_school_origin then ["school_origin_analysis"] else []) ++
  ["raw_data_expander"]

/-- What `main` renders below the sidebar: nothing when `load_data`
returned `None`, the toggled sections otherwise. -/
def main_render (file : String) (t : Toggles) : List String :=
  match (load_data file).1 with
  | none => []
  | some _ => renderedSections t

/-- C5: `load_data` parses semicolon-delimited, double-quoted input
skipping malformed rows (concrete exemplar), and never propagates a parse
exception: on a successful parse it returns the table with no error
displayed, and on a parse error it displays the error message, returns
`None`, and the caller renders nothing. -/
theorem c5_load_data :
    (∀ file df, read_csv file = Except.ok df → load_data file = (some df, [])) ∧
    (∀ file e, read_csv file = Except.error e →
        load_data file = (none, ["Error loading CSV: " ++ e]) ∧
        ∀ t : Toggles, main_render file t = []) ∧
    read_csv "kolom1;kolom2\nv1;\"a;b\"\nmalformed\nv2;v3"
      = Except.ok (["kolom1", "kolom2"], [["v1", "a;b"], ["v2", "v3"]]) := by
  refine ⟨?_, ?_, rfl⟩
  · intro file df h
    simp [load_data, h]
  · intro file e h
    refine ⟨by simp [load_data, h], fun t => ?_⟩
    simp [main_render, load_data, h]

/-- C5 witness: the exemplar file loads with no error; the empty file
takes the error path, displays the message, and renders nothing. -/
theorem c5_load_data_witness :
    load_data "kolom1;kolom2\nv1;\"a;b\"\nmalformed\nv2;v3"
      = (some (["kolom1", "kolom2"], [["v1", "a;b"], ["v2", "v3"]]), []) ∧
    load_data "" = (none, ["Error loading CSV: No columns to parse from file"]) ∧
    main_render "" defaultToggles = [] :=
  ⟨c5_load_data.1 _ _ rfl,
   (c5_load_data.2.1 "" "No columns to parse from file" rfl).1,
   (c5_load_data.2.1 "" "No columns to parse from file" rfl).2 defaultToggles⟩

/-- helper: each section is rendered iff its own checkbox is set, and the
raw-data expander is always rendered. -/
theorem mem_renderedSections (t : Toggles) :
    ("summary_statistics" ∈ renderedSections t ↔ t.show_summary = true) ∧
    ("demographic_analysis" ∈ renderedSections t ↔ t.show_demographic = true) ∧
    ("geographical_analysis" ∈ renderedSections t ↔ t.show_geographic = true) ∧
    ("school_preference_analysis" ∈ renderedSections t ↔ t.show_preferences = true) ∧
    ("parent_education_analysis" ∈ renderedSections t ↔ t.show_parent_education = true) ∧
    ("parent_occupation_analysis" ∈ renderedSections t ↔ t.show_parent_occupation = true) ∧
    ("income_analysis" ∈ renderedSections t ↔ t.show_income = true) ∧
    ("school_origin_analysis" ∈ renderedSections t ↔ t.show_school_origin = true) ∧
    "raw_data_expander" ∈ renderedSections t := by
  obtain ⟨a, b, c, d, e, f, g, h⟩ := t
  cases a <;> cases b <;> cases c <;> cases d <;> cases e <;> cases f <;>
    cases g <;> cases h <;> decide

/-- C7: the eight sidebar checkboxes all default to on; each report
section is rendered iff its own checkbox is set; the raw-data expander is
always rendered; and whether a section is rendered depends only on its
own checkbox, so toggling one section never affects another. -/
theorem c7_toggles :
    (defaultToggles.show_summary = true ∧ defaultToggles.show_demographic = true ∧
     defaultToggles.show_geographic = true ∧ defaultToggles.show_preferences = true ∧
     defaultToggles.show_parent_education = true ∧
     defaultToggles.show_parent_occupation = true ∧
     defaultToggles.show_income = true ∧ defaultToggles.show_school_origin = true) ∧
    (∀ t : Toggles,
      ("summary_statistics" ∈ renderedSections t ↔ t.show_summary = true) ∧
      ("demographic_analysis" ∈ renderedSections t ↔ t.show_demographic = true) ∧
      ("geographical_analysis" ∈ renderedSections t ↔ t.show_geographic = true) ∧
      ("school_preference_analysis" ∈ renderedSections t ↔ t.show_preferences = true) ∧
      ("parent_education_analysis" ∈ renderedSections t ↔
          t.show_parent_education = true) ∧
      ("parent_occupation_analysis" ∈ renderedSections t ↔
          t.show_parent_occupation = true) ∧
      ("income_analysis" ∈ renderedSections t ↔ t.show_income = true) ∧
      ("school_origin_analysis" ∈ renderedSections t ↔ t.show_school_origin = true) ∧
      "raw_data_expander" ∈ renderedSections t) ∧
    (∀ t t' : Toggles, t.show_income = t'.show_income →
      ("income_analysis" ∈ renderedSections t ↔
       "income_analysis" ∈ renderedSections t')) ∧
    (∀ t t' : Toggles, t.show_summary = t'.show_summary →
      ("summary_statistics" ∈ renderedSections t ↔
       "summary_statistics" ∈ renderedSections t')) := by
  refine ⟨by decide, mem_renderedSections, fun t t' h => ?_, fun t t' h => ?_⟩
  · exact ((mem_renderedSections t).2.2.2.2.2.2.1).trans
      (h ▸ ((mem_renderedSections t').2.2.2.2.2.2.1).symm)
  · exact ((mem_renderedSections t).1).trans
      (h ▸ ((mem_renderedSections t').1).symm)

/-- C7 witness: with income toggled off and everything else at default,
the income section is not rendered, every other section is, and the
raw-data expander is present. -/
theorem c7_toggles_witness :
    ("income_analysis" ∈
        renderedSections { defaultToggles with show_income := false } ↔
      ({ defaultToggles with show_income := false } : Toggles).show_income = true) ∧
    ("income_analysis" ∉
        renderedSections { defaultToggles with show_income := false }) ∧
    ("demographic_analysis" ∈
        renderedSections { defaultToggles with show_income := false }) ∧
    ("income_analysis" ∈ renderedSections defaultToggles ↔
      "income_analysis" ∈ renderedSections defaultToggles) :=
  ⟨(c7_toggles.2.1 { defaultToggles with show_income := false }).2.2.2.2.2.2.1,
   by decide, by decide,
   c7_toggles.2.2.1 defaultToggles defaultToggles rfl⟩

end PMB
